/-
  Verification of the chunked-recording storage core of
  OP-88/Audio_Transcription_Sys (src/backend/chunk_storage.py and the
  chunk-upload endpoints of src/backend/app.py), as a shallow embedding.

  Bytes are modelled as `List Nat`; timestamps as `Nat` (seconds) except in
  the reclaimer, where the Python code computes a fractional `age_hours`,
  modelled with `ℚ`.  A session directory is modelled by `SessionFS`:
  whether the directory exists, the chunk files it holds (keyed by file
  name, as on disk), and the contents of `metadata.json` (`none` when the
  file does not exist).  Python `ValueError`/`IOError` become explicit
  `StorageError` values returned in an `Except`; since a raised exception
  leaves prior file writes in place, each fallible operation returns the
  post-state alongside the result.
-/
import Mathlib

deriving instance DecidableEq for Except

/-- The metadata record persisted as `metadata.json` (chunk_storage.py,
`initialize_session` / `save_chunk` / `combine_chunks`). -/
structure Metadata where
  sessionId : String
  mimeType : String
  createdAt : Nat
  chunksReceived : Nat
  totalSize : Nat
  lastUpdated : Option Nat
  finalized : Bool
  finalizedAt : Option Nat
  outputFile : Option String
deriving DecidableEq

/-- One session's on-disk state: `recording_chunks/<sessionId>/`.
`files` holds the `chunk_*.webm` files keyed by file name (the
`metadata.json` file is modelled separately by `metadata`). -/
structure SessionFS where
  dirExists : Bool
  files : List (String × List Nat)
  metadata : Option Metadata
deriving DecidableEq

/-- The distinct `ValueError` messages raised by chunk_storage.py, plus the
filesystem failure mode of a failed output write. -/
inductive StorageError where
  | sessionNotInitialized   -- "Session {id} not initialized"   (save_chunk)
  | sessionDoesNotExist     -- "Session {id} does not exist"    (get_metadata)
  | noChunksFound           -- "No chunks found for session {id}" (combine_chunks)
  | ioFailure               -- an OSError from a file write
deriving DecidableEq

/-- Result dict of `save_chunk`. -/
structure SaveResult where
  chunkIndex : Nat
  size : Nat
  totalChunks : Nat
  totalSize : Nat
deriving DecidableEq

/-- Result dict of `combine_chunks`. -/
structure CombineResult where
  chunksCombined : Nat
  totalSize : Nat
  outputFile : String
deriving DecidableEq

/-- Python `f"{n:06d}"`: decimal digits of `n`, left-padded with zeros to
width 6. -/
def pad6 (n : Nat) : String :=
  let s := toString n
  String.mk (List.replicate (6 - s.length) '0') ++ s

/-- `chunk_file = self.session_dir / f"chunk_{chunk_index:06d}.webm"`. -/
def chunkFileName (i : Nat) : String :=
  "chunk_" ++ pad6 i ++ ".webm"

/-- Writing a file: overwrites the entry with the same name if present,
otherwise adds a new entry. -/
def writeFile (name : String) (data : List Nat) :
    List (String × List Nat) → List (String × List Nat)
  | [] => [(name, data)]
  | (n, d) :: rest =>
      if n = name then (name, data) :: rest
      else (n, d) :: writeFile name data rest

/-- Codepoint-lexicographic comparison of file names, the order in which
Python `sorted` lists the chunk files of one directory. -/
def lexLe : List Char → List Char → Bool
  | [], _ => true
  | _ :: _, [] => false
  | a :: as, b :: bs =>
      if a.toNat < b.toNat then true
      else if b.toNat < a.toNat then false
      else lexLe as bs

/-- `nameLe a b` : file name `a` sorts no later than file name `b`. -/
def nameLe (a b : String) : Bool :=
  lexLe a.data b.data

/-- Insert one file into a name-sorted file list. -/
def insertFile (p : String × List Nat) :
    List (String × List Nat) → List (String × List Nat)
  | [] => [p]
  | q :: qs =>
      if nameLe p.1 q.1 then p :: q :: qs
      else q :: insertFile p qs

/-- `sorted(self.session_dir.glob("chunk_*.webm"))`: the chunk files in
codepoint-lexicographic file-name order. -/
def sortFiles : List (String × List Nat) → List (String × List Nat)
  | [] => []
  | p :: ps => insertFile p (sortFiles ps)

/-- `initialize_session` (chunk_storage.py lines 27-43): `mkdir(exist_ok)`
keeps existing files; the metadata record is rewritten from scratch. -/
def initialize_session (sid mime : String) (now : Nat) (s : SessionFS) :
    SessionFS :=
  { dirExists := true
    files := s.files
    metadata := some
      { sessionId := sid
        mimeType := mime
        createdAt := now
        chunksReceived := 0
        totalSize := 0
        lastUpdated := none
        finalized := false
        finalizedAt := none
        outputFile := none } }

/-- `get_metadata` (chunk_storage.py lines 74-80). -/
def get_metadata (s : SessionFS) : Except StorageError Metadata :=
  match s.metadata with
  | none => Except.error StorageError.sessionDoesNotExist
  | some m => Except.ok m

/-- `save_chunk` (chunk_storage.py lines 45-72): checks the directory,
writes the chunk file, then reads, updates and rewrites the metadata
record.  A raised error after the file write leaves the file written, so
the post-state is returned in every branch. -/
def save_chunk (now i : Nat) (data : List Nat) (s : SessionFS) :
    Except StorageError SaveResult × SessionFS :=
  if s.dirExists = false then
    (Except.error StorageError.sessionNotInitialized, s)
  else
    let files1 := writeFile (chunkFileName i) data s.files
    match s.metadata with
    | none =>
        (Except.error StorageError.sessionDoesNotExist,
         { s with files := files1 })
    | some m =>
        let m1 : Metadata :=
          { m with
            chunksReceived := i + 1
            totalSize := m.totalSize + data.length
            lastUpdated := some now }
        (Except.ok
          { chunkIndex := i
            size := data.length
            totalChunks := m1.chunksReceived
            totalSize := m1.totalSize },
         { s with files := files1, metadata := some m1 })

/-- `get_chunks` (chunk_storage.py lines 82-88): empty list when the
directory does not exist, otherwise the chunk files sorted by name. -/
def get_chunks (s : SessionFS) : List (String × List Nat) :=
  if s.dirExists = false then []
  else sortFiles s.files

/-- The output-writing loop of `combine_chunks` (lines 101-105).
`failAt = some k` models the write of the k-th chunk raising an OSError;
returns (succeeded, bytes written so far, running total size). -/
def writeLoop : List (List Nat) → Option Nat → Bool × List Nat × Nat
  | [], _ => (true, [], 0)
  | d :: ds, failAt =>
      match failAt with
      | some 0 => (false, [], 0)
      | some (k + 1) =>
          let r := writeLoop ds (some k)
          (r.1, d ++ r.2.1, d.length + r.2.2)
      | none =>
          let r := writeLoop ds none
          (r.1, d ++ r.2.1, d.length + r.2.2)

/-- `combine_chunks` (chunk_storage.py lines 90-123): lists the chunks,
raises if none, streams them into the output target, then marks the
metadata finalized.  Returns (result, post-state, bytes written to the
output target). -/
def combine_chunks (now : Nat) (outputPath : String) (failAt : Option Nat)
    (s : SessionFS) :
    Except StorageError CombineResult × SessionFS × List Nat :=
  let chunks := get_chunks s
  if chunks = [] then
    (Except.error StorageError.noChunksFound, s, [])
  else
    let w := writeLoop (chunks.map Prod.snd) failAt
    if w.1 = false then
      (Except.error StorageError.ioFailure, s, w.2.1)
    else
      match s.metadata with
      | none =>
          (Except.error StorageError.sessionDoesNotExist, s, w.2.1)
      | some m =>
          let m1 : Metadata :=
            { m with
              finalized := true
              finalizedAt := some now
              outputFile := some outputPath }
          (Except.ok
            { chunksCombined := chunks.length
              totalSize := w.2.2
              outputFile := outputPath },
           { s with metadata := some m1 }, w.2.1)

/-- `shutil.rmtree(self.session_dir)`: fails when the directory does not
exist, otherwise removes the directory and everything in it. -/
def rmtree (s : SessionFS) : Except StorageError SessionFS :=
  if s.dirExists = false then Except.error StorageError.ioFailure
  else Except.ok { dirExists := false, files := [], metadata := none }

/-- `cleanup` (chunk_storage.py lines 125-129): `rmtree` guarded by the
existence check. -/
def cleanup (s : SessionFS) : Except StorageError SessionFS :=
  if s.dirExists then rmtree s else Except.ok s

/-- The reclaim condition of `cleanup_old_sessions` (line 161):
`age_hours > max_age_hours and not metadata.get("finalized", False)`,
where `age_hours = (now - created_at).total_seconds() / 3600`.  A
directory without a metadata file is skipped. -/
def reclaimB (now maxAge : ℚ) : String × Option Metadata → Bool
  | (_, none) => false
  | (_, some m) =>
      decide ((now - (m.createdAt : ℚ)) / 3600 > maxAge) && !m.finalized

/-- `cleanup_old_sessions` (chunk_storage.py lines 145-166): scans every
session directory and deletes those matching the reclaim condition;
returns (surviving directories, count removed). -/
def cleanup_old_sessions (now maxAge : ℚ) :
    List (String × Option Metadata) →
    List (String × Option Metadata) × Nat
  | [] => ([], 0)
  | e :: rest =>
      let r := cleanup_old_sessions now maxAge rest
      if reclaimB now maxAge e then (r.1, r.2 + 1)
      else (e :: r.1, r.2)

/-- The chunk-upload endpoint outcome (app.py `upload_chunk`): empty
payload rejected with 400 before any storage call; a `ValueError` from
`save_chunk` mapped to 404 "Session not found". -/
inductive UploadOutcome where
  | emptyPayload
  | sessionNotFound (e : StorageError)
  | success (r : SaveResult)
deriving DecidableEq

/-- `upload_chunk` (app.py lines 348-388): the empty check runs first,
then `save_chunk`; the returned state is whatever `save_chunk` left. -/
def upload_chunk (now i : Nat) (data : List Nat) (s : SessionFS) :
    UploadOutcome × SessionFS :=
  if data.length = 0 then (UploadOutcome.emptyPayload, s)
  else
    match save_chunk now i data s with
    | (Except.error e, s1) => (UploadOutcome.sessionNotFound e, s1)
    | (Except.ok r, s1) => (UploadOutcome.success r, s1)

/-- Run a sequence of `save_chunk` calls, keeping only the states. -/
def runSaves (now : Nat) (saves : List (Nat × List Nat)) (s : SessionFS) :
    SessionFS :=
  saves.foldl (fun st p => (save_chunk now p.1 p.2 st).2) s

/-- Whether a sequence of `save_chunk` calls is accepted in full (each
call returns `ok` on the state left by the previous one). -/
def runSavesAccepted (now : Nat) :
    List (Nat × List Nat) → SessionFS → Bool
  | [], _ => true
  | p :: rest, s =>
      match save_chunk now p.1 p.2 s with
      | (Except.ok _, s1) => runSavesAccepted now rest s1
      | (Except.error _, _) => false

/-- Reading a file from a file list by name. -/
def readFile (name : String) : List (String × List Nat) → Option (List Nat)
  | [] => none
  | (n, d) :: rest => if n = name then some d else readFile name rest

/-- The `chunks_received` field of a session's metadata record, when the
record exists. -/
def chunksReceivedOf (s : SessionFS) : Option Nat :=
  s.metadata.map Metadata.chunksReceived

/-- The `total_size` field of a session's metadata record, when the
record exists. -/
def totalSizeOf (s : SessionFS) : Option Nat :=
  s.metadata.map Metadata.totalSize

/-- Split a character list at `/`, the way `pathlib` splits a string
operand of `/` into path segments. -/
def splitSlashAux : List Char → List Char → List String
  | [], acc => [String.mk acc.reverse]
  | c :: cs, acc =>
      if c = '/' then String.mk acc.reverse :: splitSlashAux cs []
      else splitSlashAux cs (c :: acc)

/-- The `/`-separated segments of a path string. -/
def splitSlash (s : String) : List String :=
  splitSlashAux s.data []

/-- `ChunkStorage.__init__` (chunk_storage.py lines 22-25) builds
`CHUNKS_DIR / session_id` with no validation of `session_id`: the raw
path segments of the session directory. -/
def sessionDirSegments (sid : String) : List String :=
  "recording_chunks" :: splitSlash sid

/-- Filesystem resolution of a relative segment list: `..` pops the last
segment, `.` and empty segments are dropped. -/
def resolveSegs (segs : List String) : List String :=
  segs.foldl
    (fun acc seg =>
      if seg = ".." then acc.dropLast
      else if seg = "." ∨ seg = "" then acc
      else acc ++ [seg])
    []

/-- A session id is confined to the storage root when its resolved
session directory still starts with the `recording_chunks` root. -/
def confinedToRoot (sid : String) : Bool :=
  (resolveSegs (sessionDirSegments sid)).head? = some "recording_chunks"

/-- A freshly initialized metadata record, used as a concrete sample. -/
def mSample : Metadata :=
  { sessionId := "sess", mimeType := "audio/webm", createdAt := 0,
    chunksReceived := 0, totalSize := 0, lastUpdated := none,
    finalized := false, finalizedAt := none, outputFile := none }

/-- A freshly initialized session holding no chunks. -/
def sEmpty : SessionFS :=
  { dirExists := true, files := [], metadata := some mSample }

/-- An initialized session holding one chunk at index 0. -/
def sOneChunk : SessionFS :=
  { dirExists := true, files := [(chunkFileName 0, [1])],
    metadata := some mSample }

/-- Writing a file and reading it back by the same name yields the data
just written. -/
theorem readFile_writeFile (name : String) (d : List Nat) :
    ∀ fs, readFile name (writeFile name d fs) = some d := by
  intro fs
  induction fs with
  | nil => simp [writeFile, readFile]
  | cons q rest ih =>
      obtain ⟨n, dd⟩ := q
      by_cases h : n = name
      · simp [writeFile, readFile, h]
      · simp [writeFile, readFile, h, ih]

/-- C3 (amended): `combine` on a session id that was never initialized
fails with the same `noChunksFound` error as an initialized session with
zero persisted chunks: `get_chunks` turns the missing directory into an
empty chunk list, so no distinct session-not-found error is raised. -/
theorem combine_uninitialized_noChunks (now : Nat) (path : String)
    (failAt : Option Nat) (m : Metadata) :
    (combine_chunks now path failAt
        { dirExists := false, files := [], metadata := none }).1 =
      Except.error StorageError.noChunksFound ∧
    (combine_chunks now path failAt
        { dirExists := true, files := [], metadata := some m }).1 =
      Except.error StorageError.noChunksFound := by
  constructor <;> simp [combine_chunks, get_chunks, sortFiles]

/-- C3 (counterexample): on a never-initialized session, `combine` does
not fail with a session-not-found error distinct from the no-chunks
error; it returns exactly the `noChunksFound` error that an initialized,
chunk-less session also returns. -/
theorem combine_uninitialized_counterexample :
    (combine_chunks 0 "out" none
        { dirExists := false, files := [], metadata := none }).1 =
      Except.error StorageError.noChunksFound ∧
    (combine_chunks 0 "out" none sEmpty).1 =
      Except.error StorageError.noChunksFound ∧
    StorageError.noChunksFound ≠ StorageError.sessionDoesNotExist ∧
    StorageError.noChunksFound ≠ StorageError.sessionNotInitialized := by
  decide

/-- C4: evaluating the unvalidated path construction of
`ChunkStorage.__init__` at the traversal session id `"../x"`: the session
directory resolves to `x`, outside the `recording_chunks` storage root,
while an ordinary id stays confined.  No validation rejects the id. -/
theorem sessionDir_traversal_escape :
    confinedToRoot "../x" = false ∧
    resolveSegs (sessionDirSegments "../x") = ["x"] ∧
    confinedToRoot "my-session" = true := by
  decide

/-- C8: re-initializing an already-initialized session succeeds,
replaces the metadata record with a fresh one (zero counters,
unfinalized, createdAt set to the current time) and leaves the chunk
files of the session directory exactly as they were. -/
theorem reinitialize_fresh_metadata (sid mime : String) (now : Nat)
    (s : SessionFS) (m0 : Metadata)
    (hdir : s.dirExists = true) (hm : s.metadata = some m0) :
    initialize_session sid mime now s =
      { dirExists := true, files := s.files,
        metadata := some
          { sessionId := sid, mimeType := mime, createdAt := now,
            chunksReceived := 0, totalSize := 0, lastUpdated := none,
            finalized := false, finalizedAt := none, outputFile := none } } :=
  rfl

/-- Witness for C8 at a concrete already-initialized session holding one
chunk file. -/
theorem reinitialize_fresh_metadata_witness :
    sOneChunk.dirExists = true ∧ sOneChunk.metadata = some mSample ∧
    initialize_session "sess" "audio/webm" 7 sOneChunk =
      { dirExists := true, files := sOneChunk.files,
        metadata := some
          { sessionId := "sess", mimeType := "audio/webm", createdAt := 7,
            chunksReceived := 0, totalSize := 0, lastUpdated := none,
            finalized := false, finalizedAt := none, outputFile := none } } :=
  ⟨rfl, rfl, reinitialize_fresh_metadata "sess" "audio/webm" 7 sOneChunk mSample rfl rfl⟩

/-- C9: `cleanup` always succeeds: it removes the session directory with
everything in it when the directory exists and is a no-op when the
directory is already gone, so running it twice in a row is safe
(`cleanup` after `cleanup` returns the same result). -/
theorem cleanup_total_and_idempotent (s : SessionFS) :
    cleanup s =
      Except.ok
        (if s.dirExists then
          { dirExists := false, files := [], metadata := none }
        else s) ∧
    (cleanup s >>= cleanup) = cleanup s := by
  cases hd : s.dirExists <;>
    simp [cleanup, rmtree, hd, Bind.bind, Except.bind]

/-- C10: when the session directory exists but its `metadata.json` is
missing, `save_chunk` raises the session-does-not-exist error of
`get_metadata`, yet the chunk file has already been written: the failing
call changes the stored state. -/
theorem save_chunk_fails_after_write (now i : Nat) (data : List Nat)
    (s : SessionFS) (h1 : s.dirExists = true) (h2 : s.metadata = none) :
    save_chunk now i data s =
      (Except.error StorageError.sessionDoesNotExist,
       { s with files := writeFile (chunkFileName i) data s.files }) ∧
    readFile (chunkFileName i) ((save_chunk now i data s).2.files) =
      some data := by
  constructor
  · simp [save_chunk, h1, h2]
  · simp [save_chunk, h1, h2, readFile_writeFile]

/-- Witness for C10 at a concrete directory-only session. -/
theorem save_chunk_fails_after_write_witness :
    (SessionFS.mk true [] none).dirExists = true ∧
    (SessionFS.mk true [] none).metadata = none ∧
    (save_chunk 4 2 [9] (SessionFS.mk true [] none) =
      (Except.error StorageError.sessionDoesNotExist,
       { SessionFS.mk true [] none with
           files := writeFile (chunkFileName 2) [9]
                      (SessionFS.mk true [] none).files }) ∧
     readFile (chunkFileName 2)
       ((save_chunk 4 2 [9] (SessionFS.mk true [] none)).2.files) =
       some [9]) :=
  ⟨rfl, rfl, save_chunk_fails_after_write 4 2 [9] (SessionFS.mk true [] none) rfl rfl⟩

/-- C7: the chunk-upload pipeline rejects an empty payload before any
storage call, on every session state; a non-empty payload on any
session whose directory does not exist (the uninitialized case,
including the real on-disk state with no metadata record) fails with
the session-not-found mapping and leaves the state unchanged; a
non-empty payload on an initialized session with a metadata record is
accepted and the call returns the chunk's size and the updated
counters. -/
theorem upload_chunk_contract (now i : Nat) (data : List Nat)
    (hd : data ≠ []) :
    (∀ s : SessionFS,
       upload_chunk now i [] s = (UploadOutcome.emptyPayload, s)) ∧
    (∀ s : SessionFS, s.dirExists = false →
       upload_chunk now i data s =
         (UploadOutcome.sessionNotFound StorageError.sessionNotInitialized,
          s)) ∧
    (∀ (s : SessionFS) (m : Metadata),
       s.dirExists = true → s.metadata = some m →
       upload_chunk now i data s =
         (UploadOutcome.success
            { chunkIndex := i, size := data.length,
              totalChunks := i + 1,
              totalSize := m.totalSize + data.length },
          { s with
              files := writeFile (chunkFileName i) data s.files,
              metadata := some
                { m with
                    chunksReceived := i + 1,
                    totalSize := m.totalSize + data.length,
                    lastUpdated := some now } })) := by
  refine ⟨?_, ?_, ?_⟩
  · intro s
    simp [upload_chunk]
  · intro s h
    simp [upload_chunk, save_chunk, h, hd]
  · intro s m h hm
    simp [upload_chunk, save_chunk, h, hd, hm]

/-- Witness for C7 at a concrete one-byte payload; the conclusion covers
every session state, in particular the uninitialized state with no
directory and no metadata record as well as the initialized empty
session. -/
theorem upload_chunk_contract_witness :
    ([5] : List Nat) ≠ [] ∧
    ((∀ s : SessionFS,
        upload_chunk 3 0 [] s = (UploadOutcome.emptyPayload, s)) ∧
     (∀ s : SessionFS, s.dirExists = false →
        upload_chunk 3 0 [5] s =
          (UploadOutcome.sessionNotFound StorageError.sessionNotInitialized,
           s)) ∧
     (∀ (s : SessionFS) (m : Metadata),
        s.dirExists = true → s.metadata = some m →
        upload_chunk 3 0 [5] s =
          (UploadOutcome.success
             { chunkIndex := 0, size := ([5] : List Nat).length,
               totalChunks := 0 + 1,
               totalSize := m.totalSize + ([5] : List Nat).length },
           { s with
               files := writeFile (chunkFileName 0) [5] s.files,
               metadata := some
                 { m with
                     chunksReceived := 0 + 1,
                     totalSize := m.totalSize + ([5] : List Nat).length,
                     lastUpdated := some 3 } }))) :=
  ⟨by decide, upload_chunk_contract 3 0 [5] (by decide)⟩

/-- The output-writing loop fails whenever the failing write position
lies inside the chunk list. -/
theorem writeLoop_fail :
    ∀ (ds : List (List Nat)) (k : Nat), k < ds.length →
      (writeLoop ds (some k)).1 = false := by
  intro ds
  induction ds with
  | nil => intro k h; simp at h
  | cons d rest ih =>
      intro k h
      cases k with
      | zero => simp [writeLoop]
      | succ k2 =>
          have h2 : k2 < rest.length := by
            simpa using Nat.lt_of_succ_lt_succ h
          simpa [writeLoop] using ih k2 h2

/-- C6: when the write to the output target fails partway through the
chunk list, `combine_chunks` propagates the failure and the session's
post-state equals its pre-state: no chunk file is touched and the
metadata record is not marked finalized, so a retried combine reads the
same chunk set. -/
theorem combine_partial_failure_frame (now : Nat) (path : String)
    (k : Nat) (s : SessionFS) (h : k < (get_chunks s).length) :
    (combine_chunks now path (some k) s).1 =
      Except.error StorageError.ioFailure ∧
    (combine_chunks now path (some k) s).2.1 = s := by
  have hne : get_chunks s ≠ [] := by
    intro e
    rw [e] at h
    simp at h
  have hw : (writeLoop ((get_chunks s).map Prod.snd) (some k)).1 = false :=
    writeLoop_fail _ _ (by simpa using h)
  constructor <;> simp [combine_chunks, hne, hw]

/-- Witness for C6 at a concrete one-chunk session with the first output
write failing. -/
theorem combine_partial_failure_frame_witness :
    0 < (get_chunks sOneChunk).length ∧
    ((combine_chunks 2 "out" (some 0) sOneChunk).1 =
       Except.error StorageError.ioFailure ∧
     (combine_chunks 2 "out" (some 0) sOneChunk).2.1 = sOneChunk) :=
  ⟨by decide, combine_partial_failure_frame 2 "out" 0 sOneChunk (by decide)⟩

/-- The reclaimer filters the session list by its reclaim condition and
counts the sessions it removes. -/
theorem cleanup_old_sessions_filter (now maxAge : ℚ) :
    ∀ dirs : List (String × Option Metadata),
      cleanup_old_sessions now maxAge dirs =
        (dirs.filter (fun e => !(reclaimB now maxAge e)),
         (dirs.filter (fun e => reclaimB now maxAge e)).length) := by
  intro dirs
  induction dirs with
  | nil => rfl
  | cons e rest ih =>
      by_cases h : reclaimB now maxAge e = true
      · simp [cleanup_old_sessions, List.filter_cons, h, ih]
      · simp [cleanup_old_sessions, List.filter_cons, h, ih]

/-- C5: a stored session survives `cleanup_old_sessions` exactly when
its reclaim condition fails, the returned count is the number of
sessions removed, the reclaim condition holds exactly when the session's
age in hours strictly exceeds the threshold and the record is not
finalized, and a finalized record is never reclaimed regardless of age. -/
theorem reclaim_stale_contract (now maxAge : ℚ)
    (dirs : List (String × Option Metadata)) :
    ((cleanup_old_sessions now maxAge dirs).1 =
       dirs.filter (fun e => !(reclaimB now maxAge e))) ∧
    ((cleanup_old_sessions now maxAge dirs).2 =
       (dirs.filter (fun e => reclaimB now maxAge e)).length) ∧
    (∀ (name : String) (m : Metadata),
       reclaimB now maxAge (name, some m) = true ↔
         ((now - (m.createdAt : ℚ)) / 3600 > maxAge ∧
          m.finalized = false)) ∧
    (∀ (name : String) (m : Metadata),
       reclaimB now maxAge (name, some { m with finalized := true }) =
         false) := by
  refine ⟨?_, ?_, ?_, ?_⟩
  · rw [cleanup_old_sessions_filter]
  · rw [cleanup_old_sessions_filter]
  · intro name m
    simp [reclaimB, Bool.and_eq_true, Bool.not_eq_true']
  · intro name m
    simp [reclaimB]

/-- Sorting the chunk-file list of a session holding exactly the indices
0, 1, 2 yields the files in ascending index order, whatever order the
directory held them in. -/
theorem sortFiles_perm012 (A B C : List Nat) (l : List (String × List Nat))
    (hl : l = [(chunkFileName 0, A), (chunkFileName 1, B), (chunkFileName 2, C)] ∨
          l = [(chunkFileName 0, A), (chunkFileName 2, C), (chunkFileName 1, B)] ∨
          l = [(chunkFileName 1, B), (chunkFileName 0, A), (chunkFileName 2, C)] ∨
          l = [(chunkFileName 1, B), (chunkFileName 2, C), (chunkFileName 0, A)] ∨
          l = [(chunkFileName 2, C), (chunkFileName 0, A), (chunkFileName 1, B)] ∨
          l = [(chunkFileName 2, C), (chunkFileName 1, B), (chunkFileName 0, A)]) :
    sortFiles l =
      [(chunkFileName 0, A), (chunkFileName 1, B), (chunkFileName 2, C)] := by
  have h01 : nameLe (chunkFileName 0) (chunkFileName 1) = true := by decide
  have h02 : nameLe (chunkFileName 0) (chunkFileName 2) = true := by decide
  have h12 : nameLe (chunkFileName 1) (chunkFileName 2) = true := by decide
  have h10 : nameLe (chunkFileName 1) (chunkFileName 0) = false := by decide
  have h20 : nameLe (chunkFileName 2) (chunkFileName 0) = false := by decide
  have h21 : nameLe (chunkFileName 2) (chunkFileName 1) = false := by decide
  rcases hl with h | h | h | h | h | h <;> subst h <;>
    simp [sortFiles, insertFile, h01, h02, h12, h10, h20, h21]

/-- C2: on a session holding chunks exactly at indices 0, 1, 2 with
payloads A, B, C (in any directory arrangement), `combine_chunks` writes
exactly the bytes A ++ B ++ C to the output target in ascending index
order, reports 3 chunks combined with the combined byte length, and
marks the metadata finalized while leaving the chunk files unchanged. -/
theorem combine_in_order (A B C : List Nat) (m : Metadata) (now : Nat)
    (path : String) (l : List (String × List Nat))
    (hl : l = [(chunkFileName 0, A), (chunkFileName 1, B), (chunkFileName 2, C)] ∨
          l = [(chunkFileName 0, A), (chunkFileName 2, C), (chunkFileName 1, B)] ∨
          l = [(chunkFileName 1, B), (chunkFileName 0, A), (chunkFileName 2, C)] ∨
          l = [(chunkFileName 1, B), (chunkFileName 2, C), (chunkFileName 0, A)] ∨
          l = [(chunkFileName 2, C), (chunkFileName 0, A), (chunkFileName 1, B)] ∨
          l = [(chunkFileName 2, C), (chunkFileName 1, B), (chunkFileName 0, A)]) :
    combine_chunks now path none
        { dirExists := true, files := l, metadata := some m } =
      (Except.ok
        { chunksCombined := 3, totalSize := (A ++ B ++ C).length,
          outputFile := path },
       { dirExists := true, files := l,
         metadata := some
           { m with finalized := true, finalizedAt := some now,
                    outputFile := some path } },
       A ++ B ++ C) := by
  have hs := sortFiles_perm012 A B C l hl
  simp [combine_chunks, get_chunks, hs, writeLoop, List.append_assoc,
        List.length_append, Nat.add_assoc]

/-- Witness for C2 at one-byte payloads stored in a shuffled directory
arrangement. -/
theorem combine_in_order_witness :
    (([(chunkFileName 2, [3]), (chunkFileName 0, [1]), (chunkFileName 1, [2])] :
        List (String × List Nat)) =
          [(chunkFileName 0, [1]), (chunkFileName 1, [2]), (chunkFileName 2, [3])] ∨
     ([(chunkFileName 2, [3]), (chunkFileName 0, [1]), (chunkFileName 1, [2])] :
        List (String × List Nat)) =
          [(chunkFileName 0, [1]), (chunkFileName 2, [3]), (chunkFileName 1, [2])] ∨
     ([(chunkFileName 2, [3]), (chunkFileName 0, [1]), (chunkFileName 1, [2])] :
        List (String × List Nat)) =
          [(chunkFileName 1, [2]), (chunkFileName 0, [1]), (chunkFileName 2, [3])] ∨
     ([(chunkFileName 2, [3]), (chunkFileName 0, [1]), (chunkFileName 1, [2])] :
        List (String × List Nat)) =
          [(chunkFileName 1, [2]), (chunkFileName 2, [3]), (chunkFileName 0, [1])] ∨
     ([(chunkFileName 2, [3]), (chunkFileName 0, [1]), (chunkFileName 1, [2])] :
        List (String × List Nat)) =
          [(chunkFileName 2, [3]), (chunkFileName 0, [1]), (chunkFileName 1, [2])] ∨
     ([(chunkFileName 2, [3]), (chunkFileName 0, [1]), (chunkFileName 1, [2])] :
        List (String × List Nat)) =
          [(chunkFileName 2, [3]), (chunkFileName 1, [2]), (chunkFileName 0, [1])]) ∧
    combine_chunks 9 "out" none
        { dirExists := true,
          files := [(chunkFileName 2, [3]), (chunkFileName 0, [1]),
                    (chunkFileName 1, [2])],
          metadata := some mSample } =
      (Except.ok
        { chunksCombined := 3, totalSize := ([1] ++ [2] ++ [3]).length,
          outputFile := "out" },
       { dirExists := true,
         files := [(chunkFileName 2, [3]), (chunkFileName 0, [1]),
                   (chunkFileName 1, [2])],
         metadata := some
           { mSample with finalized := true, finalizedAt := some 9,
                          outputFile := some "out" } },
       [1] ++ [2] ++ [3]) :=
  ⟨by decide,
   combine_in_order [1] [2] [3] mSample 9 "out"
     [(chunkFileName 2, [3]), (chunkFileName 0, [1]), (chunkFileName 1, [2])]
     (by decide)⟩

/-- C1 (amended): for every fully accepted sequence of `save_chunk`
calls on an initialized session, the final `chunksReceived` equals the
LAST accepted index plus one (`save_chunk` overwrites the counter with
`chunk_index + 1`, so it equals `max + 1` only when the highest index
arrives last), and the final `totalSize` adds the sum of all submitted
payload sizes, even with gaps in the indices. -/
theorem runSaves_last_index (now : Nat) :
    ∀ (saves : List (Nat × List Nat)) (p : Nat × List Nat)
      (files0 : List (String × List Nat)) (m : Metadata),
      saves.getLast? = some p →
      runSavesAccepted now saves
          { dirExists := true, files := files0, metadata := some m } = true ∧
      chunksReceivedOf (runSaves now saves
          { dirExists := true, files := files0, metadata := some m }) =
        some (p.1 + 1) ∧
      totalSizeOf (runSaves now saves
          { dirExists := true, files := files0, metadata := some m }) =
        some (m.totalSize + (saves.map (fun q => q.2.length)).sum) := by
  intro saves
  induction saves with
  | nil => intro p files0 m h; simp at h
  | cons p0 rest ih =>
      intro p files0 m h
      cases rest with
      | nil =>
          have hp : p0 = p := by simpa using h
          subst hp
          refine ⟨?_, ?_, ?_⟩ <;>
            simp [runSavesAccepted, runSaves, save_chunk,
                  chunksReceivedOf, totalSizeOf]
      | cons q rest2 =>
          have h2 : (q :: rest2).getLast? = some p := by
            simpa [List.getLast?_cons_cons] using h
          have step := ih p
            (writeFile (chunkFileName p0.1) p0.2 files0)
            { m with chunksReceived := p0.1 + 1,
                     totalSize := m.totalSize + p0.2.length,
                     lastUpdated := some now } h2
          have hrun :
              runSaves now (p0 :: q :: rest2)
                  { dirExists := true, files := files0, metadata := some m } =
                runSaves now (q :: rest2)
                  { dirExists := true,
                    files := writeFile (chunkFileName p0.1) p0.2 files0,
                    metadata := some
                      { m with chunksReceived := p0.1 + 1,
                               totalSize := m.totalSize + p0.2.length,
                               lastUpdated := some now } } := by
            simp [runSaves, save_chunk]
          have hacc :
              runSavesAccepted now (p0 :: q :: rest2)
                  { dirExists := true, files := files0, metadata := some m } =
                runSavesAccepted now (q :: rest2)
                  { dirExists := true,
                    files := writeFile (chunkFileName p0.1) p0.2 files0,
                    metadata := some
                      { m with chunksReceived := p0.1 + 1,
                               totalSize := m.totalSize + p0.2.length,
                               lastUpdated := some now } } := by
            simp [runSavesAccepted, save_chunk]
          refine ⟨?_, ?_, ?_⟩
          · rw [hacc]; exact step.1
          · rw [hrun]; exact step.2.1
          · rw [hrun, step.2.2]
            simp [List.map_cons, List.sum_cons]
            omega

/-- Witness for C1 (amended) at the out-of-order accepted sequence of
indices 3 then 1 on a fresh session. -/
theorem runSaves_last_index_witness :
    ([(3, [7]), (1, [8])] : List (Nat × List Nat)).getLast? = some (1, [8]) ∧
    (runSavesAccepted 5 [(3, [7]), (1, [8])]
        { dirExists := true, files := [], metadata := some mSample } = true ∧
     chunksReceivedOf (runSaves 5 [(3, [7]), (1, [8])]
        { dirExists := true, files := [], metadata := some mSample }) =
       some (1 + 1) ∧
     totalSizeOf (runSaves 5 [(3, [7]), (1, [8])]
        { dirExists := true, files := [], metadata := some mSample }) =
       some (mSample.totalSize +
         (([(3, [7]), (1, [8])] : List (Nat × List Nat)).map
            (fun q => q.2.length)).sum)) :=
  ⟨rfl,
   runSaves_last_index 5 [(3, [7]), (1, [8])] (1, [8]) [] mSample rfl⟩

/-- C1 (counterexample): submitting the distinct indices 3 then 1, both
accepted, leaves `chunksReceived` at 2, not `max(3, 1) + 1 = 4`: the
counter records the last index plus one, not the highest. -/
theorem runSaves_not_max_counterexample :
    runSavesAccepted 5 [(3, [7]), (1, [8])] sEmpty = true ∧
    (3 : Nat) ≠ 1 ∧
    chunksReceivedOf (runSaves 5 [(3, [7]), (1, [8])] sEmpty) = some 2 ∧
    (some 2 : Option Nat) ≠ some (max 3 1 + 1) := by
  decide
